import Mathlib

/-!
Shallow embedding of the account-identity reconciliation and OTP
authentication flow of `src/lib/actions/user.actions.ts` (a Next.js
server-action module backed by the Appwrite SDK).

Modelling conventions:
* Every external call (Appwrite account directory, Appwrite document
  database, cookie store, redirect) is recorded as an `Event` in a trace,
  and its outcome is injected through an environment record, so the
  embedded functions are pure.
* JavaScript `Error` values (including Appwrite exceptions) are modelled
  as `AppwriteError` with an optional numeric `code` and a `message`;
  a plain `new Error(msg)` carries `code = none`.  All values thrown by
  this module are `Error` instances, so the `instanceof Error` tests in
  the catch blocks are modelled as always true.
* JavaScript string truthiness (`email ?`, `fullName &&`,
  `currentAccountId &&`, `existingAccountId ||`) is `s ≠ ""`, and an
  absent optional argument / missing document attribute is `Option.none`.
* `parseStringify` is `JSON.parse(JSON.stringify(·))`, the identity on
  the plain records returned here, so it is omitted.
* The Next.js `redirect` helper throws a control-flow exception; a
  `redirect` reached in a `finally` block therefore replaces any
  exception that was propagating.  `signOutUser` is modelled accordingly:
  its outcome is always the redirect.
-/

namespace UserActions

/-- A thrown JavaScript error: optional Appwrite status code plus message. -/
structure AppwriteError where
  code : Option Nat
  message : String
deriving Repr, DecidableEq

/-- A directory session as returned by `account.createSession`:
`$id` and the opaque `secret`. -/
structure Session where
  id : String
  secret : String
deriving Repr, DecidableEq

/-- A user-profile document in the users collection: internal `$id`,
`fullName`, `email`, `avatar`, and the cached `accountId` attribute
(absent or empty when never written). -/
structure Profile where
  docId : String
  fullName : String
  email : String
  avatar : String
  accountId : Option String
deriving Repr, DecidableEq

/-- External state touched by the flow: the users collection and the
`appwrite-session` cookie (its value when set). -/
structure World where
  store : List Profile
  cookie : Option String
deriving Repr, DecidableEq

/-- One observable external call made by the embedded functions. -/
inductive Event where
  | listByEmail (email : String)
  | createDoc (data : Profile)
  | updateDoc (docId : String) (newAccountId : String)
  | dirCreateEmailToken (userId : String) (email : String)
  | dirCreateSession (accountId : String) (password : String)
  | dirGetAccount (secret : String)
  | dirDeleteSession (which : String)
  | cookieSet (name : String) (value : String)
  | cookieDelete (name : String)
  | redirectTo (path : String)
deriving Repr, DecidableEq

/-- `true` on the Profile Store calls (`listDocuments`, `createDocument`,
`updateDocument`); `false` on directory, cookie and redirect events. -/
def Event.isProfileStoreCall : Event → Bool
  | .listByEmail _ => true
  | .createDoc _ => true
  | .updateDoc _ _ => true
  | _ => false

/-- `true` exactly on `listByEmail` events. -/
def Event.isListByEmail : Event → Bool
  | .listByEmail _ => true
  | _ => false

/-- Case-sensitive substring test, the semantics of JavaScript
`String.prototype.includes`. -/
def strContainsAux (pat : List Char) : List Char → Bool
  | [] => pat.isPrefixOf []
  | c :: cs => pat.isPrefixOf (c :: cs) || strContainsAux pat cs

/-- `strContains s pat` is JavaScript `s.includes(pat)`. -/
def strContains (s pat : String) : Bool :=
  strContainsAux pat.toList s.toList

/-- JavaScript `s.toLowerCase()` for the ASCII strings this module
handles (a list-map formulation that the kernel can evaluate). -/
def strToLower (s : String) : String := ⟨s.data.map Char.toLower⟩

/-- JavaScript `s.trim()`: strip leading and trailing whitespace. -/
def strTrim (s : String) : String :=
  ⟨((s.data.dropWhile Char.isWhitespace).reverse.dropWhile Char.isWhitespace).reverse⟩

/-- Modelled from the spec: the default avatar reference
(`avatarPlaceholderUrl` from `@/constants`, whose source file is not in
`src/`; only its role as a fixed default avatar value matters here). -/
def avatarPlaceholderUrl : String := "avatar-placeholder-url"

/-- `getUserByEmail` (user.actions.ts:11-21): `listDocuments` filtered by
exact equality on `email`; returns the first document when `total > 0`,
else `null`. -/
def getUserByEmail (store : List Profile) (email : String) : Option Profile :=
  (store.filter (fun p => p.email = email)).head?

/-- Outcome injections for `sendEmailOTP`: the result of
`account.createEmailToken` (the optional response field `userId` field on
success), and the value `ID.unique()` would generate. -/
structure OtpEnv where
  createEmailToken : String → String → Except AppwriteError (Option String)
  freshUserId : String

/-- `sendEmailOTP` (user.actions.ts:28-64): pick `userId || ID.unique()`,
call `createEmailToken`, return the `userId` of the response when truthy and
the passed one otherwise; on failure throw
`Error(error?.message || "Failed to send email OTP. Please try again.")`. -/
def sendEmailOTP (env : OtpEnv) (email : String) (userId : Option String) :
    Except AppwriteError String × List Event :=
  let userIdToUse :=
    match userId with
    | some u => if u = "" then env.freshUserId else u
    | none => env.freshUserId
  let ev := [Event.dirCreateEmailToken userIdToUse email]
  match env.createEmailToken userIdToUse email with
  | .ok tokenUserId =>
      match tokenUserId with
      | some a => if a = "" then (.ok userIdToUse, ev) else (.ok a, ev)
      | none => (.ok userIdToUse, ev)
  | .error e =>
      (.error ⟨none, if e.message = "" then "Failed to send email OTP. Please try again." else e.message⟩, ev)

/-- The value `createAccount` returns: `parseStringify({accountId, fullName, email})`. -/
structure CreateAccountResult where
  accountId : String
  fullName : String
  email : String
deriving Repr, DecidableEq

/-- `createAccount` (user.actions.ts:66-100): fail with the
already-exists message when `getUserByEmail` finds a profile; otherwise
send the OTP with no hint and return the resulting userId with the
supplied name and email.  The catch block rethrows `Error` instances
unchanged. -/
def createAccount (env : OtpEnv) (store : List Profile)
    (fullName email : String) :
    Except AppwriteError CreateAccountResult × List Event :=
  let tr0 := [Event.listByEmail email]
  match getUserByEmail store email with
  | some _ =>
      (.error ⟨none, "An account with this email already exists. Please sign in instead."⟩, tr0)
  | none =>
      match sendEmailOTP env email none with
      | (.error e, tr1) => (.error e, tr0 ++ tr1)
      | (.ok userId, tr1) =>
          if userId = "" then (.error ⟨none, "Failed to send OTP"⟩, tr0 ++ tr1)
          else (.ok ⟨userId, fullName, email⟩, tr0 ++ tr1)

/-- The value `signInUser` returns: `accountId` (possibly `null`) and an
optional `error` field distinguishing "no such account". -/
structure SignInResult where
  accountId : Option String
  error : Option String
deriving Repr, DecidableEq

/-- `signInUser` (user.actions.ts:300-328): when no profile exists return
the structured `{accountId: null, error: ...}` value (no throw);
otherwise send the OTP hinted by the stored accountId when truthy.  The
catch block wraps any error as
`Error(error?.message || "Failed to sign in. Please try again.")`. -/
def signInUser (env : OtpEnv) (store : List Profile) (email : String) :
    Except AppwriteError SignInResult × List Event :=
  let tr0 := [Event.listByEmail email]
  match getUserByEmail store email with
  | none =>
      (.ok ⟨none, some "User not found. Please sign up first."⟩, tr0)
  | some u =>
      let hint : Option String :=
        match u.accountId with
        | some a => if a = "" then none else some a
        | none => none
      match sendEmailOTP env email hint with
      | (.error e, tr1) =>
          (.error ⟨none, if e.message = "" then "Failed to sign in. Please try again." else e.message⟩, tr0 ++ tr1)
      | (.ok userId, tr1) =>
          if userId = "" then (.error ⟨none, "Failed to send OTP"⟩, tr0 ++ tr1)
          else (.ok ⟨some userId, none⟩, tr0 ++ tr1)

/-- Outcome injections for one `verifySecret` invocation: the outcome of the directory
`createSession` call, the account `$id` that `accountApi.get()`
reports for a session secret, the `ID.unique()` value for a new
document, whether `createDocument` fails (and with which error), a
profile written by a concurrent invocation that becomes visible at the
race-recovery requery, and whether `updateDocument` fails. -/
structure VerifyEnv where
  createSession : String → String → Except AppwriteError Session
  accountGet : String → String
  freshDocId : String
  createDocFails : Option AppwriteError
  concurrentInsert : Option Profile
  updateDocFails : Bool

/-- The value a successful `verifySecret` returns:
`{sessionId, success: true, accountId}`. -/
structure VerifyResult where
  sessionId : String
  success : Bool
  accountId : String
deriving Repr, DecidableEq

/-- Result, final external state and call trace of one `verifySecret`
invocation. -/
structure VerifyOut where
  result : Except AppwriteError VerifyResult
  world : World
  trace : List Event
deriving Repr

/-- The inner classification of a `createSession` failure
(user.actions.ts:127): status 401 or a message containing
`"Invalid token"` or `"Invalid"` (case-sensitive). -/
def sessionErrorIndicatesInvalidToken (se : AppwriteError) : Bool :=
  se.code = some 401 || strContains se.message "Invalid token" || strContains se.message "Invalid"

/-- Message thrown by the inner `createSession` catch (user.actions.ts:128). -/
def innerOtpMessage : String := "Invalid or expired OTP. Please request a new one."

/-- Message thrown by the outer catch for invalid-classified errors
(user.actions.ts:240). -/
def outerOtpMessage : String := "Invalid or expired OTP. Please request a new one and try again."

/-- Message thrown by the outer catch for messages containing "expired"
(user.actions.ts:244). -/
def expiredOtpMessage : String := "OTP has expired. Please request a new one."

/-- The inner `createSession` catch (user.actions.ts:124-131): convert an
invalid-token-classified error to `Error(innerOtpMessage)`, rethrow any
other error unchanged. -/
def classifySessionError (se : AppwriteError) : AppwriteError :=
  if sessionErrorIndicatesInvalidToken se then ⟨none, innerOtpMessage⟩ else se

/-- The outer catch of `verifySecret` (user.actions.ts:232-253): rewrite
to `outerOtpMessage` when code is 401 or the lower-cased message contains
"invalid token" or "invalid"; else to `expiredOtpMessage` when the
message contains "expired"; else rethrow the error unchanged when its
message is truthy; else throw the generic fallback. -/
def outerCatch (e : AppwriteError) : AppwriteError :=
  if e.code = some 401 || strContains (strToLower e.message) "invalid token" || strContains (strToLower e.message) "invalid" then
    ⟨none, outerOtpMessage⟩
  else if strContains e.message "expired" then
    ⟨none, expiredOtpMessage⟩
  else if e.message = "" then
    ⟨none, "Invalid OTP. Please try again."⟩
  else e

/-- The message of the `Error` thrown when `createDocument` failed and
the requery still found nothing (user.actions.ts:181). -/
def persistErrMsg (dbErr : AppwriteError) : String :=
  "Failed to save user data: " ++
    (if dbErr.message = "" then "Unknown database error" else dbErr.message) ++
    ". Please ensure your Appwrite collection has the correct attributes: fullName, email, avatar, and accounId (or accountId)."

/-- The best-effort accountId drift update
(user.actions.ts:185-199 and 201-217): when the stored `accountId` is
truthy and differs from the resolved one, attempt `updateDocument`; a
failure is logged and swallowed. -/
def updateDrift (env : VerifyEnv) (w : World) (u : Profile)
    (actual : String) (tr : List Event) : World × List Event :=
  match u.accountId with
  | none => (w, tr)
  | some cur =>
      if cur = "" then (w, tr)
      else if cur = actual then (w, tr)
      else
        let tr1 := tr ++ [Event.updateDoc u.docId actual]
        if env.updateDocFails then (w, tr1)
        else
          ({ w with store := w.store.map (fun p => if p.docId = u.docId then { p with accountId := some actual } else p) }, tr1)

/-- Steps 5-6 of `verifySecret` (user.actions.ts:219-231): set the
`appwrite-session` cookie to the session secret and return
`{sessionId, success: true, accountId}`. -/
def finishOk (w : World) (session : Session) (actual : String)
    (tr : List Event) : VerifyOut :=
  ⟨.ok ⟨session.id, true, actual⟩,
   { w with cookie := some session.secret },
   tr ++ [Event.cookieSet "appwrite-session" session.secret]⟩

/-- The sign-up create branch of `verifySecret`
(user.actions.ts:150-200): build the document from trimmed name,
trimmed/lower-cased email, the default avatar and the resolved
accountId; on create failure requery by email (a concurrently inserted
profile is visible now), proceed as found when the requery hits
(including the drift update), and throw `persistErrMsg` otherwise. -/
def signUpCreate (env : VerifyEnv) (w : World) (session : Session)
    (actual : String) (fn em : String) (tr : List Event) : VerifyOut :=
  match env.createDocFails with
  | none =>
      finishOk { w with store := w.store ++
          [⟨env.freshDocId, strTrim fn, strToLower (strTrim em),
            avatarPlaceholderUrl, some actual⟩] }
        session actual
        (tr ++ [Event.createDoc ⟨env.freshDocId, strTrim fn, strToLower (strTrim em),
          avatarPlaceholderUrl, some actual⟩])
  | some dbErr =>
      match getUserByEmail (w.store ++ env.concurrentInsert.toList) em with
      | none =>
          ⟨.error (outerCatch ⟨none, persistErrMsg dbErr⟩),
           { w with store := w.store ++ env.concurrentInsert.toList },
           tr ++ [Event.createDoc ⟨env.freshDocId, strTrim fn, strToLower (strTrim em),
             avatarPlaceholderUrl, some actual⟩, Event.listByEmail em]⟩
      | some u =>
          finishOk
            (updateDrift env { w with store := w.store ++ env.concurrentInsert.toList }
              u actual
              (tr ++ [Event.createDoc ⟨env.freshDocId, strTrim fn, strToLower (strTrim em),
                avatarPlaceholderUrl, some actual⟩, Event.listByEmail em])).1
            session actual
            (updateDrift env { w with store := w.store ++ env.concurrentInsert.toList }
              u actual
              (tr ++ [Event.createDoc ⟨env.freshDocId, strTrim fn, strToLower (strTrim em),
                avatarPlaceholderUrl, some actual⟩, Event.listByEmail em])).2

/-- `verifySecret` after a successful `createSession`
(user.actions.ts:133-231): resolve the authoritative accountId via
`accountApi.get()` on the fresh secret, locate the profile by email when
one was supplied (string truthiness), then create / race-recover /
drift-update accordingly, set the cookie and return. -/
def verifyAfterSession (env : VerifyEnv) (w : World) (session : Session)
    (fullName email : Option String) : VerifyOut :=
  let actual := env.accountGet session.secret
  let tr0 : List Event := [Event.dirGetAccount session.secret]
  match email with
  | none => finishOk w session actual tr0
  | some em =>
      if em = "" then finishOk w session actual tr0
      else
        let tr1 := tr0 ++ [Event.listByEmail em]
        match getUserByEmail w.store em with
        | some u =>
            let p := updateDrift env w u actual tr1
            finishOk p.1 session actual p.2
        | none =>
            match fullName with
            | none => finishOk w session actual tr1
            | some fn =>
                if fn = "" then finishOk w session actual tr1
                else signUpCreate env w session actual fn em tr1

/-- `verifySecret` (user.actions.ts:102-254): create the session
(classifying a failure via the inner catch and then the outer catch),
then run the reconciliation; an error escaping the body passes through
the outer catch. -/
def verifySecret (env : VerifyEnv) (w : World) (accountId password : String)
    (fullName email : Option String) : VerifyOut :=
  match env.createSession accountId password with
  | .error se =>
      ⟨.error (outerCatch (classifySessionError se)), w,
       [Event.dirCreateSession accountId password]⟩
  | .ok session =>
      let rest := verifyAfterSession env w session fullName email
      ⟨rest.result, rest.world, Event.dirCreateSession accountId password :: rest.trace⟩

/-- Outcome injection for `signOutUser`: the result of
`account.deleteSession("current")`. -/
structure SignOutEnv where
  deleteSessionResult : Except AppwriteError Unit
deriving Repr

/-- `signOutUser` (user.actions.ts:287-298): try to delete the directory
session and then delete the cookie; on failure `handleError` logs and
rethrows, but the `redirect("/sign-in")` in the `finally` block throws the
Next.js redirect and replaces the propagating error, so the observable
outcome is always the redirect.  When `deleteSession` throws, the cookie
deletion on the next line is never reached. -/
def signOutUser (env : SignOutEnv) (w : World) : World × List Event :=
  match env.deleteSessionResult with
  | .ok _ =>
      ({ w with cookie := none },
       [Event.dirDeleteSession "current", Event.cookieDelete "appwrite-session",
        Event.redirectTo "/sign-in"])
  | .error _ =>
      (w, [Event.dirDeleteSession "current", Event.redirectTo "/sign-in"])


/-! ## Reduction lemmas shared by the claim theorems -/

theorem verifySecret_of_ok (env : VerifyEnv) (w : World) (a pw : String)
    (fn em : Option String) (sess : Session)
    (h : env.createSession a pw = .ok sess) :
    verifySecret env w a pw fn em =
      ⟨(verifyAfterSession env w sess fn em).result,
       (verifyAfterSession env w sess fn em).world,
       Event.dirCreateSession a pw :: (verifyAfterSession env w sess fn em).trace⟩ := by
  unfold verifySecret
  rw [h]

theorem verifySecret_of_error (env : VerifyEnv) (w : World) (a pw : String)
    (fn em : Option String) (se : AppwriteError)
    (h : env.createSession a pw = .error se) :
    verifySecret env w a pw fn em =
      ⟨.error (outerCatch (classifySessionError se)), w,
       [Event.dirCreateSession a pw]⟩ := by
  unfold verifySecret
  rw [h]

theorem verifyAfterSession_no_email (env : VerifyEnv) (w : World)
    (sess : Session) (fn : Option String) :
    verifyAfterSession env w sess fn none =
      finishOk w sess (env.accountGet sess.secret)
        [Event.dirGetAccount sess.secret] := rfl

theorem verifyAfterSession_found (env : VerifyEnv) (w : World) (sess : Session)
    (fn : Option String) (em : String) (u : Profile)
    (hem : em ≠ "") (hfind : getUserByEmail w.store em = some u) :
    verifyAfterSession env w sess fn (some em) =
      finishOk (updateDrift env w u (env.accountGet sess.secret)
          [Event.dirGetAccount sess.secret, Event.listByEmail em]).1
        sess (env.accountGet sess.secret)
        (updateDrift env w u (env.accountGet sess.secret)
          [Event.dirGetAccount sess.secret, Event.listByEmail em]).2 := by
  unfold verifyAfterSession
  simp only [hfind, if_neg hem]
  rfl

theorem verifyAfterSession_signup (env : VerifyEnv) (w : World) (sess : Session)
    (fn em : String)
    (hem : em ≠ "") (hfn : fn ≠ "") (hnone : getUserByEmail w.store em = none) :
    verifyAfterSession env w sess (some fn) (some em) =
      signUpCreate env w sess (env.accountGet sess.secret) fn em
        [Event.dirGetAccount sess.secret, Event.listByEmail em] := by
  unfold verifyAfterSession
  simp only [hnone, if_neg hem, if_neg hfn]
  rfl

/-! ## Sample inputs used by witnesses and counterexamples -/

/-- A directory environment whose challenge call always succeeds and
reports userId `"U1"`. -/
def otpEnvSample : OtpEnv := ⟨fun _ _ => .ok (some "U1"), "F1"⟩

/-- A stored profile for `ana@x.com` with cached accountId `"I1"`. -/
def profAna : Profile := ⟨"doc1", "Ana", "ana@x.com", avatarPlaceholderUrl, some "I1"⟩

/-! ## Claim theorems -/

/-- C6: for every email that already has a profile record, `createAccount`
fails with the `AccountAlreadyExistsError` message and its trace holds
only the one Profile Store query — no Account Directory call, so no OTP
challenge is issued. -/
theorem createAccount_existing_email_rejected (env : OtpEnv)
    (store : List Profile) (fullName email : String) (u : Profile)
    (hfound : getUserByEmail store email = some u) :
    createAccount env store fullName email =
      (.error ⟨none, "An account with this email already exists. Please sign in instead."⟩,
       [Event.listByEmail email]) ∧
    (createAccount env store fullName email).2.all Event.isProfileStoreCall = true := by
  have h : createAccount env store fullName email =
      (.error ⟨none, "An account with this email already exists. Please sign in instead."⟩,
       [Event.listByEmail email]) := by
    unfold createAccount
    rw [hfound]
  exact ⟨h, by rw [h]; rfl⟩

/-- Witness for C6 at a concrete store holding a profile for `ana@x.com`. -/
theorem createAccount_existing_email_rejected_witness :
    getUserByEmail [profAna] "ana@x.com" = some profAna ∧
    createAccount otpEnvSample [profAna] "Ana" "ana@x.com" =
      (.error ⟨none, "An account with this email already exists. Please sign in instead."⟩,
       [Event.listByEmail "ana@x.com"]) :=
  ⟨rfl, (createAccount_existing_email_rejected otpEnvSample [profAna] "Ana" "ana@x.com"
    profAna rfl).1⟩

/-- C7: for every email with no profile record, `signInUser` returns the
structured not-found value with a null accountId and throws nothing; its
trace is the single Profile Store query. -/
theorem signInUser_not_found_structured (env : OtpEnv) (store : List Profile)
    (email : String) (h : getUserByEmail store email = none) :
    signInUser env store email =
      (.ok ⟨none, some "User not found. Please sign up first."⟩,
       [Event.listByEmail email]) := by
  unfold signInUser
  rw [h]

/-- Witness for C7 at the empty store. -/
theorem signInUser_not_found_structured_witness :
    getUserByEmail [] "ghost@x.com" = none ∧
    signInUser otpEnvSample [] "ghost@x.com" =
      (.ok ⟨none, some "User not found. Please sign up first."⟩,
       [Event.listByEmail "ghost@x.com"]) :=
  ⟨rfl, signInUser_not_found_structured otpEnvSample [] "ghost@x.com" rfl⟩

/-- C3: when the directory rejects the passcode (a 401, or a message the
code classifies as invalid), `verifySecret` fails with the
invalid-or-expired-OTP message, the world (Profile Store and cookie) is
unchanged, and the trace holds only the `createSession` attempt — so no
Profile Record is created and the session cookie is never set. -/
theorem verifySecret_bad_otp_rejected (env : VerifyEnv) (w : World)
    (a pw : String) (fn em : Option String) (se : AppwriteError)
    (hsess : env.createSession a pw = .error se)
    (hbad : se.code = some 401 ∨ strContains se.message "Invalid" = true) :
    verifySecret env w a pw fn em =
      ⟨.error ⟨none, outerOtpMessage⟩, w, [Event.dirCreateSession a pw]⟩ := by
  rw [verifySecret_of_error env w a pw fn em se hsess]
  have hind : sessionErrorIndicatesInvalidToken se = true := by
    unfold sessionErrorIndicatesInvalidToken
    rcases hbad with h | h
    · simp [h]
    · simp [h]
  have hcls : classifySessionError se = ⟨none, innerOtpMessage⟩ := by
    unfold classifySessionError
    rw [hind]
    rfl
  have houter : outerCatch ⟨none, innerOtpMessage⟩ = ⟨none, outerOtpMessage⟩ := by decide
  rw [hcls, houter]

/-- A directory that rejects every passcode with a 401. -/
def venvBadOtp : VerifyEnv :=
  ⟨fun _ _ => .error ⟨some 401, "Invalid token passed in the request."⟩,
   fun _ => "I1", "D1", none, none, false⟩

/-- Witness for C3 at a concrete 401 rejection. -/
theorem verifySecret_bad_otp_rejected_witness :
    venvBadOtp.createSession "A1" "000000" =
      .error ⟨some 401, "Invalid token passed in the request."⟩ ∧
    verifySecret venvBadOtp ⟨[profAna], none⟩ "A1" "000000" none (some "ana@x.com") =
      ⟨.error ⟨none, outerOtpMessage⟩, ⟨[profAna], none⟩,
       [Event.dirCreateSession "A1" "000000"]⟩ :=
  ⟨rfl, verifySecret_bad_otp_rejected venvBadOtp ⟨[profAna], none⟩ "A1" "000000"
    none (some "ana@x.com") ⟨some 401, "Invalid token passed in the request."⟩
    rfl (Or.inl rfl)⟩

/-- C1 (amended): `signOutUser` always attempts the directory session
deletion and always ends in the redirect to `/sign-in` (the deletion
failure is never surfaced, because the redirect thrown in the `finally`
block replaces the rethrown error); the cookie is cleared exactly when
the deletion succeeds — when the directory call throws, the cookie
deletion statement is never reached and the world is untouched. -/
theorem signOutUser_always_attempts_and_redirects (env : SignOutEnv) (w : World) :
    Event.dirDeleteSession "current" ∈ (signOutUser env w).2 ∧
    (signOutUser env w).2.getLast? = some (Event.redirectTo "/sign-in") ∧
    (∀ u, env.deleteSessionResult = .ok u →
      (signOutUser env w).1.cookie = none ∧
      Event.cookieDelete "appwrite-session" ∈ (signOutUser env w).2) ∧
    (∀ e, env.deleteSessionResult = .error e →
      (signOutUser env w).1 = w ∧
      Event.cookieDelete "appwrite-session" ∉ (signOutUser env w).2) := by
  unfold signOutUser
  cases henv : env.deleteSessionResult with
  | ok u =>
      exact ⟨by simp, by rfl, fun v hv => ⟨rfl, by simp⟩,
        fun e he => by simp at he⟩
  | error e =>
      exact ⟨by simp, by rfl, fun v hv => by simp at hv,
        fun e2 he2 => ⟨rfl, by simp⟩⟩

/-- Witness for C1 (amended): a failing deletion still redirects and
leaves the world unchanged. -/
theorem signOutUser_always_attempts_and_redirects_witness :
    (signOutUser ⟨.error ⟨some 500, "network unreachable"⟩⟩ ⟨[], some "sek"⟩).1 =
      ⟨[], some "sek"⟩ ∧
    (signOutUser ⟨.error ⟨some 500, "network unreachable"⟩⟩ ⟨[], some "sek"⟩).2.getLast? =
      some (Event.redirectTo "/sign-in") :=
  ⟨((signOutUser_always_attempts_and_redirects ⟨.error ⟨some 500, "network unreachable"⟩⟩
      ⟨[], some "sek"⟩).2.2.2 ⟨some 500, "network unreachable"⟩ rfl).1,
   (signOutUser_always_attempts_and_redirects ⟨.error ⟨some 500, "network unreachable"⟩⟩
      ⟨[], some "sek"⟩).2.1⟩

/-- C1 counterexample: when `deleteSession` throws, the
`appwrite-session` cookie is NOT cleared (the claim says it is cleared
even then): the cookie keeps its value and no cookie-delete call occurs. -/
theorem signOutUser_failure_skips_cookie_delete :
    (signOutUser ⟨.error ⟨some 500, "network down"⟩⟩ ⟨[], some "sek"⟩).1.cookie =
      some "sek" ∧
    Event.cookieDelete "appwrite-session" ∉
      (signOutUser ⟨.error ⟨some 500, "network down"⟩⟩ ⟨[], some "sek"⟩).2 :=
  ⟨rfl, by decide⟩

/-- A directory whose `createSession` fails with a 500 error whose
message happens to contain the lower-case word "invalid". -/
def venvOddSessionError : VerifyEnv :=
  ⟨fun _ _ => .error ⟨some 500, "invalid request"⟩,
   fun _ => "I1", "D1", none, none, false⟩

/-- C9 counterexample: the error `{code: 500, message: "invalid request"}`
is NOT classified as an invalid/expired token by the inner handler
(user.actions.ts:127), yet the outer catch rewrites it to the generic
invalid-or-expired-OTP message instead of surfacing it as-is — its
original message is lost. -/
theorem verifySecret_non_token_error_not_surfaced :
    sessionErrorIndicatesInvalidToken ⟨some 500, "invalid request"⟩ = false ∧
    (verifySecret venvOddSessionError ⟨[], none⟩ "A1" "111111" none none).result =
      .error ⟨none, outerOtpMessage⟩ ∧
    outerOtpMessage ≠ "invalid request" :=
  ⟨by decide, by rfl, by decide⟩

theorem updateDrift_update (env : VerifyEnv) (w : World) (u : Profile)
    (actual : String) (tr : List Event) (cur : String)
    (hcur : u.accountId = some cur) (hne : cur ≠ "") (hdiff : cur ≠ actual) :
    updateDrift env w u actual tr =
      ((if env.updateDocFails then w
        else { w with store := w.store.map (fun p =>
          if p.docId = u.docId then { p with accountId := some actual } else p) }),
       tr ++ [Event.updateDoc u.docId actual]) := by
  unfold updateDrift
  rw [hcur]
  simp only [if_neg hne, if_neg hdiff]
  cases h : env.updateDocFails <;> simp [h]

/-- C2: when a profile exists for the supplied email and its stored
accountId is truthy and differs from the freshly resolved authoritative
identifier, `verifySecret` attempts the update (the `updateDoc` call is
in the trace), succeeds with the resolved identifier and sets the
session cookie; when `updateDocument` itself fails the store is simply
left unchanged and verification still succeeds. -/
theorem verifySecret_reconciles_drift (env : VerifyEnv) (w : World)
    (a pw : String) (fn : Option String) (em : String) (u : Profile)
    (sess : Session) (cur : String)
    (hsess : env.createSession a pw = .ok sess)
    (hem : em ≠ "")
    (hfind : getUserByEmail w.store em = some u)
    (hcur : u.accountId = some cur)
    (hne : cur ≠ "")
    (hdiff : cur ≠ env.accountGet sess.secret) :
    (verifySecret env w a pw fn (some em)).result =
      .ok ⟨sess.id, true, env.accountGet sess.secret⟩ ∧
    (verifySecret env w a pw fn (some em)).world.cookie = some sess.secret ∧
    Event.updateDoc u.docId (env.accountGet sess.secret) ∈
      (verifySecret env w a pw fn (some em)).trace ∧
    (env.updateDocFails = false →
      (verifySecret env w a pw fn (some em)).world.store =
        w.store.map (fun p => if p.docId = u.docId
          then { p with accountId := some (env.accountGet sess.secret) } else p)) ∧
    (env.updateDocFails = true →
      (verifySecret env w a pw fn (some em)).world.store = w.store) := by
  rw [verifySecret_of_ok env w a pw fn (some em) sess hsess,
      verifyAfterSession_found env w sess fn em u hem hfind,
      updateDrift_update env w u (env.accountGet sess.secret) _ cur hcur hne hdiff]
  cases h : env.updateDocFails <;>
    simp [finishOk, h]

/-- A directory that issues session `S1`/`SEC1` for any passcode and
resolves the authoritative identifier `I2` for it. -/
def venvDrift : VerifyEnv :=
  ⟨fun _ _ => .ok ⟨"S1", "SEC1"⟩, fun _ => "I2", "D9", none, none, false⟩

/-- Witness for C2: the stored `I1` is reconciled to the resolved `I2`
and verification succeeds. -/
theorem verifySecret_reconciles_drift_witness :
    (verifySecret venvDrift ⟨[profAna], none⟩ "I1" "123456" none (some "ana@x.com")).result =
      .ok ⟨"S1", true, "I2"⟩ ∧
    (verifySecret venvDrift ⟨[profAna], none⟩ "I1" "123456" none (some "ana@x.com")).world.store =
      [{ profAna with accountId := some "I2" }] := by
  refine ⟨(verifySecret_reconciles_drift venvDrift ⟨[profAna], none⟩ "I1" "123456" none
      "ana@x.com" profAna ⟨"S1", "SEC1"⟩ "I1" rfl (by decide) rfl rfl (by decide)
      (by decide)).1, ?_⟩
  have h := (verifySecret_reconciles_drift venvDrift ⟨[profAna], none⟩ "I1" "123456" none
      "ana@x.com" profAna ⟨"S1", "SEC1"⟩ "I1" rfl (by decide) rfl rfl (by decide)
      (by decide)).2.2.2.1 rfl
  simpa using h

/-- C10: when no email argument is supplied, `verifySecret` performs no
Profile Store call at all (no query, create or update appears in the
trace, and the store is untouched — in particular a drifted stored
identifier is not reconciled), while a correct passcode still yields the
success result with the resolved identifier and sets the session cookie. -/
theorem verifySecret_no_email_no_store_ops (env : VerifyEnv) (w : World)
    (a pw : String) (fn : Option String) :
    (verifySecret env w a pw fn none).world.store = w.store ∧
    (verifySecret env w a pw fn none).trace.filter Event.isProfileStoreCall = [] ∧
    (∀ sess, env.createSession a pw = .ok sess →
      (verifySecret env w a pw fn none).result =
        .ok ⟨sess.id, true, env.accountGet sess.secret⟩ ∧
      (verifySecret env w a pw fn none).world.cookie = some sess.secret) := by
  cases hc : env.createSession a pw with
  | error se =>
      rw [verifySecret_of_error env w a pw fn none se hc]
      exact ⟨rfl, rfl, fun sess hs => by simp at hs⟩
  | ok sess =>
      rw [verifySecret_of_ok env w a pw fn none sess hc,
          verifyAfterSession_no_email env w sess fn]
      refine ⟨rfl, rfl, fun s hs => ?_⟩
      injection hs with h
      subst h
      exact ⟨rfl, rfl⟩

/-- Witness for C10: even with a drifted stored profile in the store,
the sign-in-path verification leaves the store untouched and succeeds. -/
theorem verifySecret_no_email_no_store_ops_witness :
    (verifySecret venvDrift ⟨[profAna], none⟩ "I1" "123456" none none).world.store =
      [profAna] ∧
    (verifySecret venvDrift ⟨[profAna], none⟩ "I1" "123456" none none).result =
      .ok ⟨"S1", true, "I2"⟩ :=
  ⟨(verifySecret_no_email_no_store_ops venvDrift ⟨[profAna], none⟩ "I1" "123456" none).1,
   ((verifySecret_no_email_no_store_ops venvDrift ⟨[profAna], none⟩ "I1" "123456" none).2.2
      ⟨"S1", "SEC1"⟩ rfl).1⟩

theorem signUpCreate_ok (env : VerifyEnv) (w : World) (session : Session)
    (actual : String) (fn em : String) (tr : List Event)
    (hok : env.createDocFails = none) :
    signUpCreate env w session actual fn em tr =
      finishOk { w with store := w.store ++
          [⟨env.freshDocId, strTrim fn, strToLower (strTrim em),
            avatarPlaceholderUrl, some actual⟩] }
        session actual
        (tr ++ [Event.createDoc ⟨env.freshDocId, strTrim fn, strToLower (strTrim em),
          avatarPlaceholderUrl, some actual⟩]) := by
  unfold signUpCreate
  rw [hok]

theorem signUpCreate_fail_requery_none (env : VerifyEnv) (w : World)
    (session : Session) (actual : String) (fn em : String) (tr : List Event)
    (dbErr : AppwriteError)
    (hfail : env.createDocFails = some dbErr)
    (hq : getUserByEmail (w.store ++ env.concurrentInsert.toList) em = none) :
    signUpCreate env w session actual fn em tr =
      ⟨.error (outerCatch ⟨none, persistErrMsg dbErr⟩),
       { w with store := w.store ++ env.concurrentInsert.toList },
       tr ++ [Event.createDoc ⟨env.freshDocId, strTrim fn, strToLower (strTrim em),
         avatarPlaceholderUrl, some actual⟩, Event.listByEmail em]⟩ := by
  unfold signUpCreate
  simp only [hfail, hq]

theorem signUpCreate_fail_requery_found (env : VerifyEnv) (w : World)
    (session : Session) (actual : String) (fn em : String) (tr : List Event)
    (dbErr : AppwriteError) (u : Profile)
    (hfail : env.createDocFails = some dbErr)
    (hq : getUserByEmail (w.store ++ env.concurrentInsert.toList) em = some u) :
    signUpCreate env w session actual fn em tr =
      finishOk
        (updateDrift env { w with store := w.store ++ env.concurrentInsert.toList }
          u actual
          (tr ++ [Event.createDoc ⟨env.freshDocId, strTrim fn, strToLower (strTrim em),
            avatarPlaceholderUrl, some actual⟩, Event.listByEmail em])).1
        session actual
        (updateDrift env { w with store := w.store ++ env.concurrentInsert.toList }
          u actual
          (tr ++ [Event.createDoc ⟨env.freshDocId, strTrim fn, strToLower (strTrim em),
            avatarPlaceholderUrl, some actual⟩, Event.listByEmail em])).2 := by
  unfold signUpCreate
  simp only [hfail, hq]

theorem updateDrift_trace_filter (env : VerifyEnv) (w : World) (u : Profile)
    (actual : String) (tr : List Event) :
    (updateDrift env w u actual tr).2.filter Event.isListByEmail =
      tr.filter Event.isListByEmail := by
  unfold updateDrift
  cases hacc : u.accountId with
  | none => rfl
  | some cur =>
      by_cases h1 : cur = ""
      · simp only [if_pos h1]
      · simp only [if_neg h1]
        by_cases h2 : cur = actual
        · simp only [if_pos h2]
        · simp only [if_neg h2]
          cases h : env.updateDocFails <;>
            simp [h, List.filter_append, Event.isListByEmail]

/-- C8: on the sign-up path, when profile creation fails, the Profile
Store is requeried by email exactly once (two `listByEmail` calls in the
whole trace: the initial locate plus the single retry); when the requery
finds a profile (for instance one inserted by a concurrent invocation),
the flow proceeds as found and verification succeeds; the persistence
error is raised only when the profile still does not exist after that
single retry. -/
theorem verifySecret_create_failure_retries_once (env : VerifyEnv) (w : World)
    (a pw fn em : String) (sess : Session) (dbErr : AppwriteError)
    (hsess : env.createSession a pw = .ok sess)
    (hem : em ≠ "") (hfn : fn ≠ "")
    (hnone : getUserByEmail w.store em = none)
    (hfail : env.createDocFails = some dbErr) :
    ((verifySecret env w a pw (some fn) (some em)).trace.filter
        Event.isListByEmail).length = 2 ∧
    (∀ u, getUserByEmail (w.store ++ env.concurrentInsert.toList) em = some u →
      (verifySecret env w a pw (some fn) (some em)).result =
        .ok ⟨sess.id, true, env.accountGet sess.secret⟩) ∧
    (getUserByEmail (w.store ++ env.concurrentInsert.toList) em = none →
      (verifySecret env w a pw (some fn) (some em)).result =
        .error (outerCatch ⟨none, persistErrMsg dbErr⟩)) := by
  rw [verifySecret_of_ok env w a pw (some fn) (some em) sess hsess,
      verifyAfterSession_signup env w sess fn em hem hfn hnone]
  cases hq : getUserByEmail (w.store ++ env.concurrentInsert.toList) em with
  | none =>
      rw [signUpCreate_fail_requery_none env w sess (env.accountGet sess.secret) fn em
        _ dbErr hfail hq]
      refine ⟨by rfl, fun u hu => by simp at hu, fun _ => rfl⟩
  | some u =>
      rw [signUpCreate_fail_requery_found env w sess (env.accountGet sess.secret) fn em
        _ dbErr u hfail hq]
      refine ⟨?_, fun v hv => rfl, fun hn => by simp at hn⟩
      simp [List.filter_cons, List.filter_append, Event.isListByEmail,
        updateDrift_trace_filter, finishOk]

/-- The profile a concurrent `verifySecret` wrote for `bob@x.com`. -/
def profBobWinner : Profile := ⟨"docW", "Bob", "bob@x.com", avatarPlaceholderUrl, some "I2"⟩

/-- An environment where `createDocument` fails with a duplicate error
while a concurrent invocation has inserted `profBobWinner`. -/
def venvRace : VerifyEnv :=
  ⟨fun _ _ => .ok ⟨"S1", "SEC1"⟩, fun _ => "I2", "D9",
   some ⟨none, "duplicate document"⟩, some profBobWinner, false⟩

/-- Witness for C8: the losing invocation requeries once, finds the
winner, and still succeeds. -/
theorem verifySecret_create_failure_retries_once_witness :
    ((verifySecret venvRace ⟨[], none⟩ "A1" "123456" (some "Bob")
        (some "bob@x.com")).trace.filter Event.isListByEmail).length = 2 ∧
    (verifySecret venvRace ⟨[], none⟩ "A1" "123456" (some "Bob")
        (some "bob@x.com")).result = .ok ⟨"S1", true, "I2"⟩ :=
  ⟨(verifySecret_create_failure_retries_once venvRace ⟨[], none⟩ "A1" "123456" "Bob"
      "bob@x.com" ⟨"S1", "SEC1"⟩ ⟨none, "duplicate document"⟩ rfl (by decide) (by decide)
      rfl rfl).1,
   (verifySecret_create_failure_retries_once venvRace ⟨[], none⟩ "A1" "123456" "Bob"
      "bob@x.com" ⟨"S1", "SEC1"⟩ ⟨none, "duplicate document"⟩ rfl (by decide) (by decide)
      rfl rfl).2.1 profBobWinner rfl⟩

theorem strContainsAux_of_prefix {pat1 pat2 : List Char} (hp : pat1 <+: pat2) :
    ∀ l, strContainsAux pat2 l = true → strContainsAux pat1 l = true := by
  intro l
  induction l with
  | nil =>
      simp only [strContainsAux, List.isPrefixOf_iff_prefix]
      exact fun h => hp.trans h
  | cons c cs ih =>
      simp only [strContainsAux, List.isPrefixOf_iff_prefix, Bool.or_eq_true,
        decide_eq_true_eq]
      rintro (h | h)
      · exact Or.inl (hp.trans h)
      · exact Or.inr (ih h)

theorem strContains_mono {s pat1 pat2 : String} (hp : pat1.toList <+: pat2.toList)
    (h : strContains s pat2 = true) : strContains s pat1 = true :=
  strContainsAux_of_prefix hp s.toList h

/-- C9 (amended): a `createSession` failure that the inner handler
classifies as an invalid token (401 / message containing "Invalid"), and
also any failure whose lower-cased message contains "invalid", is
converted to the invalid-or-expired-OTP message; among the rest, a
message containing "expired" is converted to the OTP-expired message by
the outer catch; only a failure matching none of these patterns (with a
non-empty message) is surfaced to the caller as-is. -/
theorem verifySecret_session_error_classification (env : VerifyEnv) (w : World)
    (a pw : String) (fn em : Option String) (se : AppwriteError)
    (hsess : env.createSession a pw = .error se) :
    ((sessionErrorIndicatesInvalidToken se = true ∨
        strContains (strToLower se.message) "invalid" = true) →
      (verifySecret env w a pw fn em).result = .error ⟨none, outerOtpMessage⟩) ∧
    (sessionErrorIndicatesInvalidToken se = false →
      strContains (strToLower se.message) "invalid" = false →
      strContains se.message "expired" = true →
      (verifySecret env w a pw fn em).result = .error ⟨none, expiredOtpMessage⟩) ∧
    (sessionErrorIndicatesInvalidToken se = false →
      strContains (strToLower se.message) "invalid" = false →
      strContains se.message "expired" = false → se.message ≠ "" →
      (verifySecret env w a pw fn em).result = .error se) := by
  rw [verifySecret_of_error env w a pw fn em se hsess]
  have hprefix : ("invalid".toList : List Char) <+: "invalid token".toList :=
    ⟨" token".toList, by decide⟩
  refine ⟨?_, ?_, ?_⟩
  · intro hcase
    by_cases hi : sessionErrorIndicatesInvalidToken se = true
    · have hcls : classifySessionError se = ⟨none, innerOtpMessage⟩ := by
        unfold classifySessionError
        rw [hi]
        rfl
      have houter : outerCatch ⟨none, innerOtpMessage⟩ = ⟨none, outerOtpMessage⟩ := by
        decide
      rw [hcls, houter]
    · have hif : sessionErrorIndicatesInvalidToken se = false := by
        simpa using hi
      have hlow : strContains (strToLower se.message) "invalid" = true := by
        rcases hcase with hc | hc
        · exact absurd hc hi
        · exact hc
      have hcls : classifySessionError se = se := by
        unfold classifySessionError
        rw [hif]
        rfl
      rw [hcls]
      simp [outerCatch, hlow]
  · intro hif hlow hexp
    have hcls : classifySessionError se = se := by
      unfold classifySessionError
      rw [hif]
      rfl
    rw [hcls]
    have htok : strContains (strToLower se.message) "invalid token" = false := by
      by_contra hc
      rw [Bool.not_eq_false] at hc
      exact absurd (strContains_mono hprefix hc) (by simp [hlow])
    have h401 : ¬ se.code = some 401 := by
      intro hc
      have : sessionErrorIndicatesInvalidToken se = true := by
        unfold sessionErrorIndicatesInvalidToken
        simp [hc]
      rw [this] at hif
      cases hif
    simp [outerCatch, htok, hlow, h401, hexp]
  · intro hif hlow hexp hmsg
    have hcls : classifySessionError se = se := by
      unfold classifySessionError
      rw [hif]
      rfl
    rw [hcls]
    have htok : strContains (strToLower se.message) "invalid token" = false := by
      by_contra hc
      rw [Bool.not_eq_false] at hc
      exact absurd (strContains_mono hprefix hc) (by simp [hlow])
    have h401 : ¬ se.code = some 401 := by
      intro hc
      have : sessionErrorIndicatesInvalidToken se = true := by
        unfold sessionErrorIndicatesInvalidToken
        simp [hc]
      rw [this] at hif
      cases hif
    simp [outerCatch, htok, hlow, h401, hexp, hmsg]

/-- A directory whose `createSession` fails with a 500 error whose
message mentions expiry but not invalidity. -/
def venvExpiredErr : VerifyEnv :=
  ⟨fun _ _ => .error ⟨some 500, "token has expired"⟩,
   fun _ => "I1", "D1", none, none, false⟩

/-- Witness for C9 (amended): the non-invalid error "token has expired"
is converted by the outer catch to the OTP-expired message. -/
theorem verifySecret_session_error_classification_witness :
    (verifySecret venvExpiredErr ⟨[], none⟩ "A1" "111111" none none).result =
      .error ⟨none, expiredOtpMessage⟩ :=
  (verifySecret_session_error_classification venvExpiredErr ⟨[], none⟩ "A1" "111111"
      none none ⟨some 500, "token has expired"⟩ rfl).2.1 (by decide) (by decide)
    (by decide)

theorem updateDrift_trace_mono (env : VerifyEnv) (w : World) (u : Profile)
    (actual : String) (tr : List Event) (x : Event) (hx : x ∈ tr) :
    x ∈ (updateDrift env w u actual tr).2 := by
  unfold updateDrift
  cases u.accountId with
  | none => exact hx
  | some cur =>
      by_cases h1 : cur = ""
      · simp only [if_pos h1]
        exact hx
      · simp only [if_neg h1]
        by_cases h2 : cur = actual
        · simp only [if_pos h2]
          exact hx
        · simp only [if_neg h2]
          cases h : env.updateDocFails <;> simp [List.mem_append, hx]

theorem verifyAfterSession_result_cases (env : VerifyEnv) (w : World)
    (sess : Session) (fn em : Option String) :
    (verifyAfterSession env w sess fn em).result =
      .ok ⟨sess.id, true, env.accountGet sess.secret⟩ ∨
    ∃ e, (verifyAfterSession env w sess fn em).result = .error e := by
  unfold verifyAfterSession
  cases em with
  | none => exact Or.inl rfl
  | some em =>
      by_cases hem : em = ""
      · simp only [if_pos hem]
        exact Or.inl rfl
      · simp only [if_neg hem]
        cases hq : getUserByEmail w.store em with
        | some u => exact Or.inl rfl
        | none =>
            cases fn with
            | none => exact Or.inl rfl
            | some f =>
                by_cases hf : f = ""
                · simp only [if_pos hf]
                  exact Or.inl rfl
                · simp only [if_neg hf]
                  unfold signUpCreate
                  cases hc : env.createDocFails with
                  | none => exact Or.inl rfl
                  | some dbErr =>
                      cases hq2 : getUserByEmail (w.store ++ env.concurrentInsert.toList) em with
                      | none => exact Or.inr ⟨_, rfl⟩
                      | some u => exact Or.inl rfl

theorem verifyAfterSession_trace_has_get (env : VerifyEnv) (w : World)
    (sess : Session) (fn em : Option String) :
    Event.dirGetAccount sess.secret ∈ (verifyAfterSession env w sess fn em).trace := by
  unfold verifyAfterSession
  cases em with
  | none => simp [finishOk]
  | some em =>
      by_cases hem : em = ""
      · simp only [if_pos hem]
        simp [finishOk]
      · simp only [if_neg hem]
        cases hq : getUserByEmail w.store em with
        | some u =>
            simp only [finishOk, List.mem_append]
            exact Or.inl (updateDrift_trace_mono env w u _ _ _ (by simp))
        | none =>
            cases fn with
            | none => simp [finishOk]
            | some f =>
                by_cases hf : f = ""
                · simp only [if_pos hf]
                  simp [finishOk]
                · simp only [if_neg hf]
                  unfold signUpCreate
                  cases hc : env.createDocFails with
                  | none => simp [finishOk]
                  | some dbErr =>
                      cases hq2 : getUserByEmail (w.store ++ env.concurrentInsert.toList) em with
                      | none => simp
                      | some u =>
                          simp only [finishOk, List.mem_append]
                          exact Or.inl (updateDrift_trace_mono env _ u _ _ _ (by simp))

/-- C5: a successful `verifySecret` call always derives from a
`createSession` success, its trace shows the "who am I" query on the
fresh session secret, and the accountId in the returned value equals the
identifier resolved from that query — for every provisional input
identifier, including superseded ones. -/
theorem verifySecret_returns_resolved_id (env : VerifyEnv) (w : World)
    (a pw : String) (fn em : Option String) (res : VerifyResult)
    (h : (verifySecret env w a pw fn em).result = .ok res) :
    ∃ sess, env.createSession a pw = .ok sess ∧
      Event.dirGetAccount sess.secret ∈ (verifySecret env w a pw fn em).trace ∧
      res.accountId = env.accountGet sess.secret := by
  cases hc : env.createSession a pw with
  | error se =>
      rw [verifySecret_of_error env w a pw fn em se hc] at h
      simp at h
  | ok sess =>
      refine ⟨sess, rfl, ?_, ?_⟩
      · rw [verifySecret_of_ok env w a pw fn em sess hc]
        exact List.mem_cons_of_mem _ (verifyAfterSession_trace_has_get env w sess fn em)
      · rw [verifySecret_of_ok env w a pw fn em sess hc] at h
        rcases verifyAfterSession_result_cases env w sess fn em with hr | ⟨e, hr⟩
        · rw [hr] at h
          injection h with h2
          rw [← h2]
        · rw [hr] at h
          simp at h

/-- Witness for C5: the provisional identifier `I1` is superseded — the
directory resolves `I2` — and the success result carries `I2`. -/
theorem verifySecret_returns_resolved_id_witness :
    (verifySecret venvDrift ⟨[], none⟩ "I1" "123456" none none).result =
      .ok ⟨"S1", true, "I2"⟩ ∧
    ∃ sess, venvDrift.createSession "I1" "123456" = .ok sess ∧
      Event.dirGetAccount sess.secret ∈
        (verifySecret venvDrift ⟨[], none⟩ "I1" "123456" none none).trace ∧
      (VerifyResult.mk "S1" true "I2").accountId = venvDrift.accountGet sess.secret :=
  ⟨rfl, verifySecret_returns_resolved_id venvDrift ⟨[], none⟩ "I1" "123456" none none
    ⟨"S1", true, "I2"⟩ rfl⟩

/-- C4: for an email with no existing profile (in a store that also has
no record under the normalised email), sign-up initiation followed by a
successful verification creates exactly one Profile Record, whose email
is the trimmed lower-cased supplied email, whose full name is the
trimmed supplied name, whose avatar is the default avatar reference and
whose accountId is the identifier resolved from the fresh session. -/
theorem signup_then_verify_creates_one_profile (oenv : OtpEnv) (venv : VerifyEnv)
    (st : List Profile) (c : Option String) (fn E pw : String)
    (r : CreateAccountResult) (sess : Session)
    (hE : E ≠ "") (hfn : fn ≠ "")
    (hnone : getUserByEmail st E = none)
    (hnorm : ∀ p ∈ st, p.email ≠ strToLower (strTrim E))
    (hca : (createAccount oenv st fn E).1 = .ok r)
    (hsess : venv.createSession r.accountId pw = .ok sess)
    (hok : venv.createDocFails = none) :
    (verifySecret venv ⟨st, c⟩ r.accountId pw (some fn) (some E)).result =
      .ok ⟨sess.id, true, venv.accountGet sess.secret⟩ ∧
    (verifySecret venv ⟨st, c⟩ r.accountId pw (some fn) (some E)).world.store =
      st ++ [⟨venv.freshDocId, strTrim fn, strToLower (strTrim E),
             avatarPlaceholderUrl, some (venv.accountGet sess.secret)⟩] ∧
    ((verifySecret venv ⟨st, c⟩ r.accountId pw (some fn) (some E)).world.store.filter
        (fun p => p.email = strToLower (strTrim E))).length = 1 := by
  rw [verifySecret_of_ok venv ⟨st, c⟩ r.accountId pw (some fn) (some E) sess hsess,
      verifyAfterSession_signup venv ⟨st, c⟩ sess fn E hE hfn hnone,
      signUpCreate_ok venv ⟨st, c⟩ sess (venv.accountGet sess.secret) fn E _ hok]
  refine ⟨rfl, rfl, ?_⟩
  show ((st ++ [(⟨venv.freshDocId, strTrim fn, strToLower (strTrim E),
      avatarPlaceholderUrl, some (venv.accountGet sess.secret)⟩ : Profile)]).filter
      (fun p => p.email = strToLower (strTrim E))).length = 1
  rw [List.filter_append]
  have h1 : st.filter (fun p => p.email = strToLower (strTrim E)) = [] := by
    rw [List.filter_eq_nil_iff]
    intro p hp
    simpa using hnorm p hp
  rw [h1]
  simp

/-- A challenge environment whose token response echoes the passed
identifier. -/
def otpEnvEcho : OtpEnv := ⟨fun uid _ => .ok (some uid), "FRESH1"⟩

/-- Witness for C4: signing up `Bob` under `Ana@X.com` and verifying
creates the single normalised profile record. -/
theorem signup_then_verify_creates_one_profile_witness :
    (createAccount otpEnvEcho [] "Bob" "Ana@X.com").1 =
      .ok ⟨"FRESH1", "Bob", "Ana@X.com"⟩ ∧
    (verifySecret venvDrift ⟨[], none⟩ "FRESH1" "123456" (some "Bob")
        (some "Ana@X.com")).world.store =
      [⟨"D9", "Bob", "ana@x.com", avatarPlaceholderUrl, some "I2"⟩] ∧
    ((verifySecret venvDrift ⟨[], none⟩ "FRESH1" "123456" (some "Bob")
        (some "Ana@X.com")).world.store.filter
        (fun p => p.email = strToLower (strTrim "Ana@X.com"))).length = 1 :=
  ⟨rfl,
   (signup_then_verify_creates_one_profile otpEnvEcho venvDrift [] none "Bob" "Ana@X.com"
      "123456" ⟨"FRESH1", "Bob", "Ana@X.com"⟩ ⟨"S1", "SEC1"⟩ (by decide) (by decide) rfl
      (by simp) rfl rfl rfl).2.1,
   (signup_then_verify_creates_one_profile otpEnvEcho venvDrift [] none "Bob" "Ana@X.com"
      "123456" ⟨"FRESH1", "Bob", "Ana@X.com"⟩ ⟨"S1", "SEC1"⟩ (by decide) (by decide) rfl
      (by simp) rfl rfl rfl).2.2⟩

end UserActions
